import Mathlib

/-!
Shallow embedding of the STT (speech-to-text) Tcl adapter found in
src/tcl/stt/stt.c, together with the data model of src/tcl/stt/stt.h.

Modelling conventions:
* C pointers become Option-valued fields (none = NULL).
* The engine function table (struct EngineAPI) is reached through an opaque
  address (a Nat); a resolution map mem : Nat → EngineAPI stands for the
  process memory holding the table, so that a context can hold a possibly
  NULL pointer to it (the void *engine_funcs field).
* Calls into the engine and releases performed by the destructors are
  recorded in explicit traces; C functions returning void (model_free,
  recognizer_free, reset) are modelled by their trace events alone.
* Dereferencing a NULL pointer is modelled by the handler returning none
  (undefined behaviour); all defined outcomes are some.
* The Tcl interpreter result is modelled by the InterpResult type; the int
  status codes TCL_OK / TCL_ERROR keep their C values 0 / 1.
-/

namespace Stt

/-- Tcl status code TCL_OK (value 0 in tcl.h). -/
def TCL_OK : Int := 0

/-- Tcl status code TCL_ERROR (value 1 in tcl.h). -/
def TCL_ERROR : Int := 1

/-- A Tcl object, with the three representations the adapter reads from it:
str is what Tcl_GetString yields, bytes is what Tcl_GetByteArrayFromObj
yields (none = NULL data pointer; the int length it reports is the byte
count), intVal is what Tcl_GetIntFromObj yields (none = not parseable as an
integer, in which case Tcl_GetIntFromObj returns TCL_ERROR and leaves a
parse-error message in the interpreter). -/
structure TclObj where
  str : String
  bytes : Option (List Nat) := none
  intVal : Option Int := none
  deriving DecidableEq

/-- Model context (struct ModelCtx in stt.h). Pointer fields are Option;
model is the engine-specific model handle, engine_funcs holds the address of
the engine function table (a void pointer in C, hence possibly NULL). -/
structure ModelCtx where
  model : Option Nat
  model_path : Option String
  engine_type : Option String
  cmdname : Option String
  engine_funcs : Option Nat
  deriving DecidableEq

/-- Recognizer context (struct RecognizerCtx in stt.h). The interp field of
the C struct is an opaque host-interpreter handle and is not modelled; the
sample_rate field is a C float that none of the functions in stt.c ever
read, kept here as an uninterpreted Int tag. -/
structure RecognizerCtx where
  recognizer : Option Nat
  model : Option Nat
  model_ctx : Option ModelCtx
  cmdname : Option String
  sample_rate : Int
  closed : Bool
  deriving DecidableEq

/-- Engine function table (struct EngineAPI in stt.h). The void-returning
entries model_free, recognizer_free and reset have no value the adapter
consumes, so they are modelled purely by trace events; create_recognizer is
the one entry the adapter null-checks, hence an Option (its Int result is
the Tcl status code the engine returns, the interpreter result it sets being
opaque to the adapter). The other entries return the values the adapter
consumes; stt.c calls them unguarded, the engine being required to supply
them. -/
structure EngineAPI where
  accept_waveform : Option Nat → List Nat → Nat → Int
  get_text : RecognizerCtx → Option String
  get_final : RecognizerCtx → Option String
  create_recognizer : Option (ModelCtx → Int → Int)

/-- One call made by a command handler through the engine function table,
recording exactly the arguments the C code passes. -/
inductive EngineCall where
  | acceptWaveform (recognizer : Option Nat) (data : List Nat) (length : Nat)
  | getText (ctx : RecognizerCtx)
  | getFinal (ctx : RecognizerCtx)
  | resetCall (ctx : RecognizerCtx)
  | createRecognizer (ctx : ModelCtx) (rate : Int)
  deriving DecidableEq

/-- The interpreter result left behind by a handler invocation. -/
inductive InterpResult where
  | str (s : String)
  | boolean (b : Bool)
  | errMsg (s : String)
  | wrongNumArgs (usage : String)
  | intParseError
  | engineSet
  deriving DecidableEq

/-- Observable outcome of one handler invocation: the returned Tcl status
code, the interpreter result, the engine calls made (in order), and the name
passed to Tcl_DeleteCommand when the handler deleted a command. -/
structure CmdResult where
  code : Int
  result : InterpResult
  trace : List EngineCall
  deletedCmd : Option String
  deriving DecidableEq

/-- Outcome of Tcl_AppendResult followed by return TCL_ERROR: an error with
the given message, no engine call, no command deletion. -/
def errResult (msg : String) : CmdResult :=
  { code := TCL_ERROR, result := .errMsg msg, trace := [], deletedCmd := none }

/-- RecognizerObjCmd from stt.c. cd is the ClientData pointer (a possibly
NULL RecognizerCtx pointer), objv the argument objects (objc = objv.length),
mem resolves the engine-table address stored in the parent model context.
The C code loads ctx->model_ctx->engine_funcs before dispatching on the
subcommand string; a NULL model_ctx therefore makes every subcommand
dereference NULL, modelled by the none outcome. The engine-table pointer
itself is only dereferenced in the branches that call through it. -/
def RecognizerObjCmd (mem : Nat → EngineAPI) (cd : Option RecognizerCtx)
    (objv : List TclObj) : Option CmdResult :=
  match cd with
  | none => some (errResult "recognizer closed")
  | some ctx =>
    if ctx.closed then some (errResult "recognizer closed")
    else
      match objv with
      | o0 :: o1 :: rest =>
        match ctx.model_ctx with
        | none => none
        | some mc =>
          let sub := o1.str
          if sub = "accept-waveform" then
            match rest with
            | [o2] =>
              match o2.bytes with
              | none => some (errResult "invalid audio data")
              | some data =>
                if data.length = 0 then some (errResult "invalid audio data")
                else
                  match mc.engine_funcs with
                  | none => none
                  | some p =>
                    let r := (mem p).accept_waveform ctx.recognizer data data.length
                    some { code := TCL_OK, result := .boolean (r != 0),
                           trace := [.acceptWaveform ctx.recognizer data data.length],
                           deletedCmd := none }
            | _ =>
              some { code := TCL_ERROR, result := .wrongNumArgs "audio_data",
                     trace := [], deletedCmd := none }
          else if sub = "text" then
            match mc.engine_funcs with
            | none => none
            | some p =>
              let r := (mem p).get_text ctx
              some { code := TCL_OK, result := .str (r.getD ""),
                     trace := [.getText ctx], deletedCmd := none }
          else if sub = "final-result" then
            match mc.engine_funcs with
            | none => none
            | some p =>
              let r := (mem p).get_final ctx
              some { code := TCL_OK, result := .str (r.getD ""),
                     trace := [.getFinal ctx], deletedCmd := none }
          else if sub = "reset" then
            match mc.engine_funcs with
            | none => none
            | some _ =>
              some { code := TCL_OK, result := .str "ok",
                     trace := [.resetCall ctx], deletedCmd := none }
          else if sub = "close" then
            some { code := TCL_OK, result := .str "ok", trace := [],
                   deletedCmd := some o0.str }
          else
            some (errResult ("unknown subcommand \"" ++ sub ++ "\""))
      | _ =>
        some { code := TCL_ERROR, result := .wrongNumArgs "subcommand ?args?",
               trace := [], deletedCmd := none }

/-- ModelObjCmd from stt.c. The C code checks objc != 4 together with the
objv[2] = "-rate" comparison in a single disjunction, both yielding the same
Tcl_WrongNumArgs outcome; the engine table and its create_recognizer entry
are both null-checked before the call, the fallback error naming the engine
type tag (or "unknown" when that string is NULL). -/
def ModelObjCmd (mem : Nat → EngineAPI) (cd : Option ModelCtx)
    (objv : List TclObj) : CmdResult :=
  match cd with
  | none => errResult "model deleted"
  | some ctx =>
    match objv with
    | o0 :: o1 :: rest =>
      let sub := o1.str
      if sub = "create_recognizer" then
        match rest with
        | [o2, o3] =>
          if o2.str ≠ "-rate" then
            { code := TCL_ERROR, result := .wrongNumArgs "-rate sample_rate",
              trace := [], deletedCmd := none }
          else
            match o3.intVal with
            | none =>
              { code := TCL_ERROR, result := .intParseError,
                trace := [], deletedCmd := none }
            | some rate =>
              match ctx.engine_funcs with
              | some p =>
                match (mem p).create_recognizer with
                | some f =>
                  { code := f ctx rate, result := .engineSet,
                    trace := [.createRecognizer ctx rate], deletedCmd := none }
                | none =>
                  errResult ("create_recognizer not implemented for engine: " ++
                    ctx.engine_type.getD "unknown")
              | none =>
                errResult ("create_recognizer not implemented for engine: " ++
                  ctx.engine_type.getD "unknown")
        | _ =>
          { code := TCL_ERROR, result := .wrongNumArgs "-rate sample_rate",
            trace := [], deletedCmd := none }
      else if sub = "close" then
        { code := TCL_OK, result := .str "ok", trace := [],
          deletedCmd := some o0.str }
      else
        errResult ("unknown subcommand \"" ++ sub ++ "\"")
    | _ =>
      { code := TCL_ERROR, result := .wrongNumArgs "subcommand ?args?",
        trace := [], deletedCmd := none }

/-- One release action performed by a destructor, in the order the C code
performs them. -/
inductive DtorAction where
  | setClosed
  | modelFreeCall (handle : Nat)
  | recognizerFreeCall (handle : Nat)
  | freePath (path : String)
  | freeType (tag : String)
  | decrCmd (name : String)
  | freeCtx
  deriving DecidableEq

/-- Observable outcome of model_delete: the ordered action list and the
field values of the context at the moment ckfree(ctx) runs (none when the
ClientData was NULL and nothing happened). -/
structure ModelDeleteResult where
  actions : List DtorAction
  finalCtx : Option ModelCtx
  deriving DecidableEq

/-- model_delete from stt.c: frees the model handle only when both the
handle and the engine table pointer are non-NULL (nulling the handle), then
releases each owned string and the command-name reference under a null
check, then frees the context. The finalCtx fields record exactly which
pointers were nulled: the model handle keeps its value when the engine
table was NULL. -/
def model_delete (cd : Option ModelCtx) : ModelDeleteResult :=
  match cd with
  | none => { actions := [], finalCtx := none }
  | some ctx =>
    { actions :=
        (match ctx.model, ctx.engine_funcs with
          | some h, some _ => [DtorAction.modelFreeCall h]
          | _, _ => []) ++
        (match ctx.model_path with
          | some s => [DtorAction.freePath s]
          | none => []) ++
        (match ctx.engine_type with
          | some s => [DtorAction.freeType s]
          | none => []) ++
        (match ctx.cmdname with
          | some s => [DtorAction.decrCmd s]
          | none => []) ++
        [DtorAction.freeCtx],
      finalCtx := some { ctx with
        model := match ctx.model, ctx.engine_funcs with
          | some _, some _ => none
          | _, _ => ctx.model,
        model_path := none,
        engine_type := none,
        cmdname := none } }

/-- Observable outcome of recognizer_delete, as for model_delete. -/
structure RecDeleteResult where
  actions : List DtorAction
  finalCtx : Option RecognizerCtx
  deriving DecidableEq

/-- recognizer_delete from stt.c: after the NULL guard it sets closed = 1
first, frees the recognizer handle only when the handle, the parent model
context and the parent's engine table pointer are all non-NULL (nulling the
handle), clears the borrowed model pointer without freeing it, releases the
command-name reference under a null check, then frees the context. -/
def recognizer_delete (cd : Option RecognizerCtx) : RecDeleteResult :=
  match cd with
  | none => { actions := [], finalCtx := none }
  | some ctx =>
    { actions :=
        DtorAction.setClosed ::
        ((match ctx.recognizer, ctx.model_ctx with
          | some h, some mc =>
            match mc.engine_funcs with
            | some _ => [DtorAction.recognizerFreeCall h]
            | none => []
          | _, _ => []) ++
        (match ctx.cmdname with
          | some s => [DtorAction.decrCmd s]
          | none => []) ++
        [DtorAction.freeCtx]),
      finalCtx := some { ctx with
        closed := true,
        recognizer := match ctx.recognizer, ctx.model_ctx with
          | some _, some mc =>
            (match mc.engine_funcs with
              | some _ => none
              | none => ctx.recognizer)
          | _, _ => ctx.recognizer,
        model := none,
        cmdname := none } }

/-- One full invocation of the recognizer command, followed by the command
deletion it may trigger: when the handler calls Tcl_DeleteCommand on its own
command name, the host interpreter runs recognizer_delete on the same
ClientData. When no deletion happens the context is untouched (the handler
performs no store to it), recorded as an empty action list with the context
unchanged. -/
def recognizerDispatch (mem : Nat → EngineAPI) (cd : Option RecognizerCtx)
    (objv : List TclObj) : Option (CmdResult × RecDeleteResult) :=
  (RecognizerObjCmd mem cd objv).map fun res =>
    (res, if res.deletedCmd.isSome then recognizer_delete cd
          else { actions := [], finalCtx := cd })

/-- Convenience constructor for a Tcl object carrying only a string. -/
def strObj (s : String) : TclObj := { str := s }

/-- Convenience constructor for a Tcl object parseable as an integer. -/
def rateObj (n : Int) : TclObj := { str := toString n, intVal := some n }

/-- Convenience constructor for a Tcl object carrying a byte array. -/
def bytesObj (data : List Nat) : TclObj := { str := "", bytes := some data }

/-- Concrete engine table used to instantiate the theorems: the engine
accepts every waveform with result 0, has no current partial text, returns
"hello" as final text, and a create_recognizer entry returning TCL_OK. -/
def apiW : EngineAPI :=
  { accept_waveform := fun _ _ _ => 0
    get_text := fun _ => none
    get_final := fun _ => some "hello"
    create_recognizer := some fun _ _ => 0 }

/-- Concrete engine-table memory: every address resolves to apiW. -/
def memW : Nat → EngineAPI := fun _ => apiW

/-- Concrete model context named m1 with engine type vosk. -/
def mcW : ModelCtx :=
  { model := some 1, model_path := some "/models/vosk"
    engine_type := some "vosk", cmdname := some "m1", engine_funcs := some 0 }

/-- Concrete open recognizer context r1 whose parent is mcW. -/
def rctxW : RecognizerCtx :=
  { recognizer := some 2, model := some 1, model_ctx := some mcW
    cmdname := some "r1", sample_rate := 16000, closed := false }

/-- Concrete closed recognizer context. -/
def rctxClosedW : RecognizerCtx := { rctxW with closed := true }

/-- Concrete open recognizer context whose parent pointer is NULL. -/
def rctxOrphanW : RecognizerCtx := { rctxW with model_ctx := none }

/-- Claim C1: on a NULL or closed recognizer context the handler fails with
the "recognizer closed" message and TCL_ERROR, makes no engine call and
deletes no command, whatever the subcommand string or argument count. -/
theorem recognizer_closed_guard (mem : Nat → EngineAPI)
    (cd : Option RecognizerCtx) (objv : List TclObj)
    (h : cd = none ∨ ∃ ctx, cd = some ctx ∧ ctx.closed = true) :
    RecognizerObjCmd mem cd objv = some (errResult "recognizer closed") ∧
    ∀ res, RecognizerObjCmd mem cd objv = some res →
      res.code = TCL_ERROR ∧ res.trace = [] ∧ res.deletedCmd = none := by
  have hmain : RecognizerObjCmd mem cd objv = some (errResult "recognizer closed") := by
    rcases h with rfl | ⟨ctx, rfl, hc⟩
    · rfl
    · simp [RecognizerObjCmd, hc]
  refine ⟨hmain, fun res hres => ?_⟩
  rw [hmain] at hres
  cases hres
  exact ⟨rfl, rfl, rfl⟩

/-- Claim C1 witness: a concrete closed recognizer rejects a text call. -/
theorem recognizer_closed_guard_witness :
    RecognizerObjCmd memW (some rctxClosedW) [strObj "r1", strObj "text"] =
      some (errResult "recognizer closed") :=
  (recognizer_closed_guard memW (some rctxClosedW) [strObj "r1", strObj "text"]
    (Or.inr ⟨rctxClosedW, rfl, rfl⟩)).1

/-- Claim C10: on an open recognizer context whose parent model context
pointer is NULL, every invocation with at least one argument dereferences
NULL while loading the engine table, before dispatching on the subcommand
string: the outcome is undefined behaviour (none) for every subcommand,
close and unknown strings included. -/
theorem recognizer_null_parent (mem : Nat → EngineAPI) (ctx : RecognizerCtx)
    (o0 o1 : TclObj) (rest : List TclObj)
    (hopen : ctx.closed = false) (hmc : ctx.model_ctx = none) :
    RecognizerObjCmd mem (some ctx) (o0 :: o1 :: rest) = none := by
  simp [RecognizerObjCmd, hopen, hmc]

/-- Claim C10 witness: even close crashes on an orphaned recognizer. -/
theorem recognizer_null_parent_witness :
    RecognizerObjCmd memW (some rctxOrphanW) [strObj "r1", strObj "close"] = none :=
  recognizer_null_parent memW rctxOrphanW (strObj "r1") (strObj "close") [] rfl rfl

/-- Claim C3: accept-waveform on an open recognizer with a NULL or empty
binary payload fails with "invalid audio data" and never calls the engine
(errResult carries TCL_ERROR and an empty trace). -/
theorem accept_waveform_invalid (mem : Nat → EngineAPI) (ctx : RecognizerCtx)
    (mc : ModelCtx) (o0 o1 o2 : TclObj)
    (hopen : ctx.closed = false) (hmc : ctx.model_ctx = some mc)
    (hsub : o1.str = "accept-waveform")
    (hdata : o2.bytes = none ∨ o2.bytes = some []) :
    RecognizerObjCmd mem (some ctx) [o0, o1, o2] =
      some (errResult "invalid audio data") := by
  rcases hdata with hd | hd <;> simp [RecognizerObjCmd, hopen, hmc, hsub, hd]

/-- Claim C3 witness: an empty byte array is rejected. -/
theorem accept_waveform_invalid_witness :
    RecognizerObjCmd memW (some rctxW)
      [strObj "r1", strObj "accept-waveform", bytesObj []] =
      some (errResult "invalid audio data") :=
  accept_waveform_invalid memW rctxW mcW (strObj "r1") (strObj "accept-waveform")
    (bytesObj []) rfl rfl rfl (Or.inr rfl)

/-- Claim C4: text and final-result on an open recognizer always set a
string result: the engine string when the engine returns one, the empty
string when the engine returns NULL (Option.getD applied to the engine
return packages both cases). -/
theorem text_final_never_null (mem : Nat → EngineAPI) (ctx : RecognizerCtx)
    (mc : ModelCtx) (p : Nat) (o0 o1 : TclObj)
    (hopen : ctx.closed = false) (hmc : ctx.model_ctx = some mc)
    (hp : mc.engine_funcs = some p) :
    (o1.str = "text" →
      RecognizerObjCmd mem (some ctx) [o0, o1] =
        some { code := TCL_OK, result := .str (((mem p).get_text ctx).getD ""),
               trace := [.getText ctx], deletedCmd := none }) ∧
    (o1.str = "final-result" →
      RecognizerObjCmd mem (some ctx) [o0, o1] =
        some { code := TCL_OK, result := .str (((mem p).get_final ctx).getD ""),
               trace := [.getFinal ctx], deletedCmd := none }) := by
  constructor <;> intro hsub <;> simp [RecognizerObjCmd, hopen, hmc, hp, hsub]

/-- Claim C4 witness: the concrete engine returns no partial text, and the
handler result is the empty string rather than an absent value. -/
theorem text_final_never_null_witness :
    RecognizerObjCmd memW (some rctxW) [strObj "r1", strObj "text"] =
      some { code := TCL_OK, result := .str "", trace := [.getText rctxW],
             deletedCmd := none } :=
  (text_final_never_null memW rctxW mcW 0 (strObj "r1") (strObj "text")
    rfl rfl rfl).1 rfl

/-- Claim C9: accept-waveform on an open recognizer with one non-empty
payload calls the engine exactly once with the recognizer handle, the
payload bytes and the payload length, and returns TCL_OK with the engine's
integer result converted to a boolean (true iff nonzero). -/
theorem accept_waveform_forwards (mem : Nat → EngineAPI) (ctx : RecognizerCtx)
    (mc : ModelCtx) (p : Nat) (o0 o1 o2 : TclObj) (data : List Nat)
    (hopen : ctx.closed = false) (hmc : ctx.model_ctx = some mc)
    (hp : mc.engine_funcs = some p)
    (hsub : o1.str = "accept-waveform") (hdata : o2.bytes = some data)
    (hne : data ≠ []) :
    RecognizerObjCmd mem (some ctx) [o0, o1, o2] =
      some { code := TCL_OK,
             result := .boolean
               ((mem p).accept_waveform ctx.recognizer data data.length != 0),
             trace := [.acceptWaveform ctx.recognizer data data.length],
             deletedCmd := none } := by
  simp [RecognizerObjCmd, hopen, hmc, hp, hsub, hdata, List.length_eq_zero, hne]

/-- Claim C9 witness: two zero samples are forwarded and the engine result 0
comes back as the boolean false. -/
theorem accept_waveform_forwards_witness :
    RecognizerObjCmd memW (some rctxW)
      [strObj "r1", strObj "accept-waveform", bytesObj [0, 0]] =
      some { code := TCL_OK, result := .boolean false,
             trace := [.acceptWaveform (some 2) [0, 0] 2], deletedCmd := none } :=
  accept_waveform_forwards memW rctxW mcW 0 (strObj "r1") (strObj "accept-waveform")
    (bytesObj [0, 0]) [0, 0] rfl rfl rfl rfl rfl (by decide)

/-- Claim C2: create_recognizer -rate N with a parseable rate calls the
engine's create_recognizer exactly once with the model context and N when
both the table and the entry are non-NULL, propagating the engine's status
code; when the table pointer or the entry is NULL it fails with an error
message ending in the model's engine type tag, with no engine call made. -/
theorem create_recognizer_dispatch (mem : Nat → EngineAPI) (ctx : ModelCtx)
    (o0 o1 o2 o3 : TclObj) (n : Int)
    (h1 : o1.str = "create_recognizer") (h2 : o2.str = "-rate")
    (h3 : o3.intVal = some n) :
    (∀ p f, ctx.engine_funcs = some p → (mem p).create_recognizer = some f →
      ModelObjCmd mem (some ctx) [o0, o1, o2, o3] =
        { code := f ctx n, result := .engineSet,
          trace := [.createRecognizer ctx n], deletedCmd := none }) ∧
    (∀ tag, ctx.engine_type = some tag →
      (ctx.engine_funcs = none ∨
        ∃ p, ctx.engine_funcs = some p ∧ (mem p).create_recognizer = none) →
      ModelObjCmd mem (some ctx) [o0, o1, o2, o3] =
        errResult ("create_recognizer not implemented for engine: " ++ tag)) := by
  constructor
  · intro p f hp hf
    simp [ModelObjCmd, h1, h2, h3, hp, hf]
  · intro tag htag hcase
    rcases hcase with hp | ⟨p, hp, hf⟩
    · simp [ModelObjCmd, h1, h2, h3, hp, htag]
    · simp [ModelObjCmd, h1, h2, h3, hp, hf, htag]

/-- Claim C2 witness: the concrete engine table has a create_recognizer
entry returning 0, invoked once with the model context and rate 16000. -/
theorem create_recognizer_dispatch_witness :
    ModelObjCmd memW (some mcW)
      [strObj "m1", strObj "create_recognizer", strObj "-rate", rateObj 16000] =
      { code := 0, result := .engineSet, trace := [.createRecognizer mcW 16000],
        deletedCmd := none } :=
  (create_recognizer_dispatch memW mcW (strObj "m1") (strObj "create_recognizer")
    (strObj "-rate") (rateObj 16000) 16000 rfl rfl rfl).1 0 (fun _ _ => 0) rfl rfl

/-- Claim C5 counterexample: the text subcommand, listed with no arguments,
does not reject an extra argument: on an open recognizer the call succeeds
with TCL_OK and still invokes the engine, instead of failing with a
wrong-arity error. -/
theorem text_extra_arg_accepted :
    RecognizerObjCmd memW (some rctxW) [strObj "r1", strObj "text", strObj "extra"] =
      some { code := TCL_OK, result := .str "", trace := [.getText rctxW],
             deletedCmd := none } := by decide

/-- Claim C5 (amended): only accept-waveform (argument count other than
one) and create_recognizer (argument count other than two, or a second
argument other than -rate) are arity-checked, failing with the
Tcl_WrongNumArgs error and no engine call; every subcommand the interface
table lists with no arguments — text, final-result, reset and close on the
recognizer, close on the model — performs no arity check and ignores any
trailing argument list. -/
theorem arity_checked_subcommands (mem : Nat → EngineAPI) (ctx : RecognizerCtx)
    (mc mctx : ModelCtx) (p : Nat) (o0 o1 : TclObj) (rest : List TclObj)
    (hopen : ctx.closed = false) (hmc : ctx.model_ctx = some mc) :
    (o1.str = "accept-waveform" → rest.length ≠ 1 →
      RecognizerObjCmd mem (some ctx) (o0 :: o1 :: rest) =
        some { code := TCL_ERROR, result := .wrongNumArgs "audio_data",
               trace := [], deletedCmd := none }) ∧
    (o1.str = "create_recognizer" → rest.length ≠ 2 →
      ModelObjCmd mem (some mctx) (o0 :: o1 :: rest) =
        { code := TCL_ERROR, result := .wrongNumArgs "-rate sample_rate",
          trace := [], deletedCmd := none }) ∧
    (∀ o2 o3, o1.str = "create_recognizer" → rest = [o2, o3] → o2.str ≠ "-rate" →
      ModelObjCmd mem (some mctx) (o0 :: o1 :: rest) =
        { code := TCL_ERROR, result := .wrongNumArgs "-rate sample_rate",
          trace := [], deletedCmd := none }) ∧
    (mc.engine_funcs = some p → o1.str = "text" →
      RecognizerObjCmd mem (some ctx) (o0 :: o1 :: rest) =
        some { code := TCL_OK, result := .str (((mem p).get_text ctx).getD ""),
               trace := [.getText ctx], deletedCmd := none }) ∧
    (mc.engine_funcs = some p → o1.str = "final-result" →
      RecognizerObjCmd mem (some ctx) (o0 :: o1 :: rest) =
        some { code := TCL_OK, result := .str (((mem p).get_final ctx).getD ""),
               trace := [.getFinal ctx], deletedCmd := none }) ∧
    (mc.engine_funcs = some p → o1.str = "reset" →
      RecognizerObjCmd mem (some ctx) (o0 :: o1 :: rest) =
        some { code := TCL_OK, result := .str "ok",
               trace := [.resetCall ctx], deletedCmd := none }) ∧
    (o1.str = "close" →
      RecognizerObjCmd mem (some ctx) (o0 :: o1 :: rest) =
        some { code := TCL_OK, result := .str "ok", trace := [],
               deletedCmd := some o0.str }) ∧
    (o1.str = "close" →
      ModelObjCmd mem (some mctx) (o0 :: o1 :: rest) =
        { code := TCL_OK, result := .str "ok", trace := [],
          deletedCmd := some o0.str }) := by
  refine ⟨?_, ?_, ?_, ?_, ?_, ?_, ?_, ?_⟩
  · intro hsub hlen
    match rest with
    | [] => simp [RecognizerObjCmd, hopen, hmc, hsub]
    | [_] => exact absurd rfl hlen
    | _ :: _ :: _ => simp [RecognizerObjCmd, hopen, hmc, hsub]
  · intro hsub hlen
    match rest with
    | [] => simp [ModelObjCmd, hsub]
    | [_] => simp [ModelObjCmd, hsub]
    | [_, _] => exact absurd rfl hlen
    | _ :: _ :: _ :: _ => simp [ModelObjCmd, hsub]
  · intro o2 o3 hsub hrest ho2
    subst hrest
    simp [ModelObjCmd, hsub, ho2]
  · intro hp hsub
    simp [RecognizerObjCmd, hopen, hmc, hp, hsub]
  · intro hp hsub
    simp [RecognizerObjCmd, hopen, hmc, hp, hsub]
  · intro hp hsub
    simp [RecognizerObjCmd, hopen, hmc, hp, hsub]
  · intro hsub
    simp [RecognizerObjCmd, hopen, hmc, hsub]
  · intro hsub
    simp [ModelObjCmd, hsub]

/-- Claim C5 witness (amended): accept-waveform with no payload argument is
rejected with the wrong-arity error. -/
theorem arity_checked_subcommands_witness :
    RecognizerObjCmd memW (some rctxW) [strObj "r1", strObj "accept-waveform"] =
      some { code := TCL_ERROR, result := .wrongNumArgs "audio_data",
             trace := [], deletedCmd := none } :=
  (arity_checked_subcommands memW rctxW mcW mcW 0 (strObj "r1")
    (strObj "accept-waveform") [] rfl rfl).1 rfl (by decide)

/-- Claim C6: a subcommand string outside the fixed vocabulary makes the
recognizer handler (context open, parent model context non-NULL) and the
model handler fail with an error message quoting the offending string
verbatim, with no engine call and no command deletion (errResult). -/
theorem unknown_subcommand_rejected (mem : Nat → EngineAPI) (ctx : RecognizerCtx)
    (mc mctx : ModelCtx) (o0 o1 : TclObj) (rest : List TclObj)
    (hopen : ctx.closed = false) (hmc : ctx.model_ctx = some mc) :
    (o1.str ∉ (["accept-waveform", "text", "final-result", "reset", "close"] :
        List String) →
      RecognizerObjCmd mem (some ctx) (o0 :: o1 :: rest) =
        some (errResult ("unknown subcommand \"" ++ o1.str ++ "\""))) ∧
    (o1.str ∉ (["create_recognizer", "close"] : List String) →
      ModelObjCmd mem (some mctx) (o0 :: o1 :: rest) =
        errResult ("unknown subcommand \"" ++ o1.str ++ "\"")) := by
  constructor
  · intro hsub
    simp only [List.mem_cons, List.not_mem_nil, or_false, not_or] at hsub
    obtain ⟨n1, n2, n3, n4, n5⟩ := hsub
    simp [RecognizerObjCmd, hopen, hmc, n1, n2, n3, n4, n5]
  · intro hsub
    simp only [List.mem_cons, List.not_mem_nil, or_false, not_or] at hsub
    obtain ⟨n1, n2⟩ := hsub
    simp [ModelObjCmd, n1, n2]

/-- Claim C6 witness: the scenario string bogus-subcommand is echoed back
verbatim by the model handler. -/
theorem unknown_subcommand_rejected_witness :
    ModelObjCmd memW (some mcW) [strObj "m1", strObj "bogus-subcommand"] =
      errResult "unknown subcommand \"bogus-subcommand\"" :=
  (unknown_subcommand_rejected memW rctxW mcW mcW (strObj "m1")
    (strObj "bogus-subcommand") [] rfl rfl).2 (by decide)

/-- Claim C7: both destructors tolerate a NULL ClientData and guard every
release on the corresponding field: free_model runs iff the model handle and
the engine table pointer are both non-NULL, free_recognizer runs iff the
recognizer handle, the parent context and the parent's engine table pointer
are all non-NULL, each string release and reference decrement runs iff its
field is non-NULL — so a context whose engine handle is already NULL never
reaches the engine free (no double free). -/
theorem delete_guards_releases :
    (model_delete none).actions = [] ∧
    (recognizer_delete none).actions = [] ∧
    (∀ ctx : ModelCtx,
      ((∃ h, DtorAction.modelFreeCall h ∈ (model_delete (some ctx)).actions) ↔
        (ctx.model ≠ none ∧ ctx.engine_funcs ≠ none)) ∧
      ((∃ s, DtorAction.freePath s ∈ (model_delete (some ctx)).actions) ↔
        ctx.model_path ≠ none) ∧
      ((∃ s, DtorAction.freeType s ∈ (model_delete (some ctx)).actions) ↔
        ctx.engine_type ≠ none) ∧
      ((∃ s, DtorAction.decrCmd s ∈ (model_delete (some ctx)).actions) ↔
        ctx.cmdname ≠ none)) ∧
    (∀ ctx : RecognizerCtx,
      ((∃ h, DtorAction.recognizerFreeCall h ∈ (recognizer_delete (some ctx)).actions) ↔
        (ctx.recognizer ≠ none ∧
          ∃ mc, ctx.model_ctx = some mc ∧ mc.engine_funcs ≠ none)) ∧
      ((∃ s, DtorAction.decrCmd s ∈ (recognizer_delete (some ctx)).actions) ↔
        ctx.cmdname ≠ none)) := by
  refine ⟨rfl, rfl, fun ctx => ?_, fun ctx => ?_⟩
  · obtain ⟨m, mp, et, cn, ef⟩ := ctx
    cases m <;> cases ef <;> cases mp <;> cases et <;> cases cn <;>
      simp [model_delete]
  · obtain ⟨r, m, mctx, cn, sr, cl⟩ := ctx
    rcases mctx with - | ⟨mm, mmp, met, mcn, mef⟩
    · cases r <;> cases cn <;> simp [recognizer_delete]
    · cases r <;> cases cn <;> cases mef <;> simp [recognizer_delete]

/-- Claim C7 witness: the concrete model context has a non-NULL model
handle and engine table, and its deletion records the engine free. -/
theorem delete_guards_releases_witness :
    mcW.model ≠ none ∧ mcW.engine_funcs ≠ none ∧
    (∃ h, DtorAction.modelFreeCall h ∈ (model_delete (some mcW)).actions) :=
  ⟨by decide, by decide,
    (delete_guards_releases.2.2.1 mcW).1.mpr ⟨by decide, by decide⟩⟩

/-- Claim C8: the closed flag is monotonic: recognizer_delete performs
setClosed as its very first action, before any free; the context snapshot at
free time has closed = true; and across a full dispatch (handler plus the
deletion it may trigger) a context observed closed is never reopened. -/
theorem closed_monotonic (mem : Nat → EngineAPI) :
    (∀ ctx : RecognizerCtx, ∃ rest,
      (recognizer_delete (some ctx)).actions = DtorAction.setClosed :: rest) ∧
    (∀ ctx c, (recognizer_delete (some ctx)).finalCtx = some c → c.closed = true) ∧
    (∀ cd objv res st ctx c, recognizerDispatch mem cd objv = some (res, st) →
      cd = some ctx → st.finalCtx = some c → ctx.closed = true → c.closed = true) := by
  refine ⟨fun ctx => ⟨_, rfl⟩, fun ctx c hc => ?_, ?_⟩
  · simp only [recognizer_delete, Option.some.injEq] at hc
    rw [← hc]
  · intro cd objv res st ctx c hdisp hcd hfin hcl
    subst hcd
    simp only [recognizerDispatch, Option.map_eq_some'] at hdisp
    obtain ⟨a, -, ha⟩ := hdisp
    by_cases hdel : a.deletedCmd.isSome
    · have hst : st = recognizer_delete (some ctx) := by
        simpa [hdel] using congrArg Prod.snd ha.symm
      rw [hst] at hfin
      simp only [recognizer_delete, Option.some.injEq] at hfin
      rw [← hfin]
    · have hst : st = { actions := [], finalCtx := some ctx } := by
        simpa [hdel] using congrArg Prod.snd ha.symm
      rw [hst] at hfin
      obtain rfl : ctx = c := by simpa using hfin
      exact hcl

/-- Claim C8 witness: deleting the concrete open recognizer yields a
snapshot with the closed flag set. -/
theorem closed_monotonic_witness :
    (recognizer_delete (some rctxW)).finalCtx =
      some { rctxW with closed := true, recognizer := none, model := none,
                        cmdname := none } ∧
    ({ rctxW with closed := true, recognizer := none, model := none,
                  cmdname := none } : RecognizerCtx).closed = true :=
  ⟨by decide, (closed_monotonic memW).2.1 rctxW _ (by decide)⟩

end Stt
